import Mathlib

/-!
Shallow embedding of the Vantage Telegram gateway (src/tools.py and
src/gateway.py) and proofs about its tool-calling orchestration loop,
tool executor and reply post-processing.

External effects (the model endpoint, subprocess execution, JSON
parsing/serialisation, the Telegram channel) are modelled as explicit
oracle parameters; the control flow of the Python source is translated
branch for branch.
-/

/-- A single-quote character, used to build Python `KeyError` message text. -/
def apos : String := String.mk [Char.ofNat 39]

/-- A Python value as it occurs in a tool-call argument mapping:
the gateway only ever passes strings and integers to the executor. -/
inductive PyVal where
  | pstr (s : String)
  | pint (n : Int)
deriving DecidableEq

/-- Python `str()` on the values we model (identity on strings,
decimal rendering on ints). -/
def pyStr : PyVal → String
  | .pstr s => s
  | .pint n => toString n

/-- Exceptions that can escape the body of the `try` block of `execute_tool`:
`KeyError` from a missing required argument, `subprocess.TimeoutExpired`,
or any other exception (spawn failure, `json.loads` failure), carried
with its Python `str(e)` text. -/
inductive PyExc where
  | keyError (k : String)
  | timeoutExpired
  | otherExc (m : String)
deriving DecidableEq

/-- Python `str(e)` for the exceptions we model; `str(KeyError(k))`
renders as the key in single quotes. -/
def excStr : PyExc → String
  | .keyError k => apos ++ k ++ apos
  | .timeoutExpired => ""
  | .otherExc m => m

/-- Outcome of one `subprocess.run(cmd, ..., timeout=t)` call, supplied
as an oracle: normal completion with exit code/stdout/stderr, a
`TimeoutExpired` exception, or some other exception. -/
inductive SubprocResult where
  | completed (returncode : Int) (stdout : String) (stderr : String)
  | timeout
  | exc (m : String)
deriving DecidableEq

/-- The dictionary returned by `execute_tool`: either the JSON value
parsed from the child stdout (represented by that stdout text), or an
error dictionary of shape `{"error": msg}`. -/
inductive ToolRet where
  | ok (stdout : String)
  | err (msg : String)
deriving DecidableEq

/-- Argument mapping (`Dict[str, Any]`) of a tool call. -/
abbrev ToolArgs := List (String × PyVal)

/-- Process-wide configuration values from `config.py` that the embedded
code reads (script directories, system prompt text). They are loaded
from the environment at startup, so they are parameters here. -/
structure GatewayConfig where
  systemPrompt : String
  taskScriptsDir : String
  rfpScriptsDir : String
  projectScriptsDir : String

/-- Command construction of `execute_tool` (src/tools.py lines 247-337):
for each recognised tool name, the argument list handed to
`subprocess.run` together with the literal `timeout=` value of that
branch; `.ok none` is the final `else` branch (unknown tool);
`.error (.keyError k)` is a `KeyError` raised by `arguments[k]` on a
missing required argument, in the same evaluation order as the source. -/
def buildCmd (cfg : GatewayConfig) (name : String) (args : ToolArgs) :
    Except PyExc (Option (List PyVal × Nat)) :=
  if name = "get_tasks" then
    match args.lookup ("project_slug") with
    | none => .error (.keyError ("project_slug"))
    | some ps =>
      let cmd := [PyVal.pstr ("python3"), PyVal.pstr (cfg.taskScriptsDir ++ "/tasks.py"),
                  PyVal.pstr ("list"), ps]
      let cmd := match args.lookup ("filter") with
        | some f => cmd ++ [PyVal.pstr ("--filter"), f]
        | none => cmd
      .ok (some (cmd, 30))
  else if name = "get_task" then
    match args.lookup ("task_id") with
    | none => .error (.keyError ("task_id"))
    | some tid =>
      .ok (some ([PyVal.pstr ("python3"), PyVal.pstr (cfg.taskScriptsDir ++ "/tasks.py"),
                  PyVal.pstr ("get"), PyVal.pstr (pyStr tid)], 30))
  else if name = "analyze_task_document" then
    match args.lookup ("task_id") with
    | none => .error (.keyError ("task_id"))
    | some tid =>
      .ok (some ([PyVal.pstr ("python3"),
                  PyVal.pstr (cfg.taskScriptsDir ++ "/analyze_task_document.py"),
                  PyVal.pstr (pyStr tid)], 60))
  else if name = "complete_task" then
    match args.lookup ("task_id") with
    | none => .error (.keyError ("task_id"))
    | some tid =>
      .ok (some ([PyVal.pstr ("python3"),
                  PyVal.pstr (cfg.taskScriptsDir ++ "/complete_task.py"),
                  PyVal.pstr (pyStr tid)], 60))
  else if name = "create_task" then
    match args.lookup ("topic_id") with
    | none => .error (.keyError ("topic_id"))
    | some topic =>
      match args.lookup ("title") with
      | none => .error (.keyError ("title"))
      | some title =>
        let cmd := [PyVal.pstr ("python3"), PyVal.pstr (cfg.taskScriptsDir ++ "/tasks.py"),
                    PyVal.pstr ("create"),
                    PyVal.pstr ("--topic-id"), PyVal.pstr (pyStr topic),
                    PyVal.pstr ("--title"), title]
        let cmd := match args.lookup ("due") with
          | some v => cmd ++ [PyVal.pstr ("--due"), v]
          | none => cmd
        let cmd := match args.lookup ("assignee_id") with
          | some v => cmd ++ [PyVal.pstr ("--assignee-id"), PyVal.pstr (pyStr v)]
          | none => cmd
        let cmd := match args.lookup ("priority") with
          | some v => cmd ++ [PyVal.pstr ("--priority"), v]
          | none => cmd
        let cmd := match args.lookup ("description") with
          | some v => cmd ++ [PyVal.pstr ("--description"), v]
          | none => cmd
        let cmd := match args.lookup ("source") with
          | some v => cmd ++ [PyVal.pstr ("--source"), v]
          | none => cmd
        let cmd := match args.lookup ("deliverable_id") with
          | some v => cmd ++ [PyVal.pstr ("--deliverable-id"), PyVal.pstr (pyStr v)]
          | none => cmd
        .ok (some (cmd, 30))
  else if name = "update_task" then
    match args.lookup ("task_id") with
    | none => .error (.keyError ("task_id"))
    | some tid =>
      let cmd := [PyVal.pstr ("python3"), PyVal.pstr (cfg.taskScriptsDir ++ "/tasks.py"),
                  PyVal.pstr ("update"), PyVal.pstr (pyStr tid)]
      let cmd := match args.lookup ("title") with
        | some v => cmd ++ [PyVal.pstr ("--title"), v]
        | none => cmd
      let cmd := match args.lookup ("due") with
        | some v => cmd ++ [PyVal.pstr ("--due"), v]
        | none => cmd
      let cmd := match args.lookup ("status") with
        | some v => cmd ++ [PyVal.pstr ("--status"), v]
        | none => cmd
      .ok (some (cmd, 30))
  else if name = "delete_task" then
    match args.lookup ("task_id") with
    | none => .error (.keyError ("task_id"))
    | some tid =>
      .ok (some ([PyVal.pstr ("python3"), PyVal.pstr (cfg.taskScriptsDir ++ "/tasks.py"),
                  PyVal.pstr ("delete"), PyVal.pstr (pyStr tid)], 30))
  else if name = "process_rfp" then
    let fp := (args.lookup ("file_path")).getD (PyVal.pstr ("latest"))
    .ok (some ([PyVal.pstr ("python3"), PyVal.pstr (cfg.rfpScriptsDir ++ "/process_rfp.py"),
                fp], 300))
  else if name = "get_project_stats" then
    match args.lookup ("project_slug") with
    | none => .error (.keyError ("project_slug"))
    | some ps =>
      .ok (some ([PyVal.pstr ("python3"),
                  PyVal.pstr (cfg.projectScriptsDir ++ "/projects.py"),
                  PyVal.pstr ("stats"), ps], 30))
  else if name = "delete_project" then
    match args.lookup ("project_slug") with
    | none => .error (.keyError ("project_slug"))
    | some ps =>
      .ok (some ([PyVal.pstr ("python3"),
                  PyVal.pstr (cfg.projectScriptsDir ++ "/projects.py"),
                  PyVal.pstr ("delete"), ps], 30))
  else if name = "get_projects" then
    .ok (some ([PyVal.pstr ("python3"),
                PyVal.pstr (cfg.projectScriptsDir ++ "/projects.py"),
                PyVal.pstr ("list")], 30))
  else
    .ok none

/-- Body of the `try` block of `execute_tool` (src/tools.py lines 246-337):
builds the command for the requested tool, runs it through the
`run` oracle with the timeout of that branch, and on exit code 0 parses the
child stdout through the `parse` oracle; an escaping exception is an
`Except.error`.  The unknown-tool `else` returns normally. -/
def execute_tool_try (cfg : GatewayConfig) (run : List PyVal → Nat → SubprocResult)
    (parse : String → Except String Unit) (name : String) (args : ToolArgs) :
    Except PyExc ToolRet :=
  match buildCmd cfg name args with
  | .error e => .error e
  | .ok none => .ok (.err ("Unknown tool: " ++ name))
  | .ok (some (cmd, tmo)) =>
    match run cmd tmo with
    | .timeout => .error .timeoutExpired
    | .exc m => .error (.otherExc m)
    | .completed rc stdout stderr =>
      if rc = 0 then
        match parse stdout with
        | .ok _ => .ok (.ok stdout)
        | .error m => .error (.otherExc m)
      else
        .ok (.err stderr)

/-- `execute_tool` (src/tools.py lines 243-342): the `try` body with its
two `except` clauses — `subprocess.TimeoutExpired` first, then the
catch-all `Exception` clause — each converting the exception into an
error dictionary. -/
def execute_tool (cfg : GatewayConfig) (run : List PyVal → Nat → SubprocResult)
    (parse : String → Except String Unit) (name : String) (args : ToolArgs) : ToolRet :=
  match execute_tool_try cfg run parse name args with
  | .ok r => r
  | .error .timeoutExpired => .err ("Tool " ++ name ++ " timed out")
  | .error e => .err ("Tool execution failed: " ++ excStr e)

/-- A tool catalog entry, keeping the name and the declared `required`
parameter list of the corresponding entry of `TOOLS` in src/tools.py. -/
structure ToolDef where
  name : String
  required : List String
deriving DecidableEq

/-- The fixed tool catalog `TOOLS` of src/tools.py (11 entries, names
and required parameters as declared there). -/
def TOOLS : List ToolDef :=
  [⟨"get_tasks", ["project_slug"]⟩,
   ⟨"get_task", ["task_id"]⟩,
   ⟨"analyze_task_document", ["task_id"]⟩,
   ⟨"complete_task", ["task_id"]⟩,
   ⟨"create_task", ["topic_id", "title"]⟩,
   ⟨"update_task", ["task_id"]⟩,
   ⟨"delete_task", ["task_id"]⟩,
   ⟨"process_rfp", []⟩,
   ⟨"get_project_stats", ["project_slug"]⟩,
   ⟨"delete_project", ["project_slug"]⟩,
   ⟨"get_projects", []⟩]

/-- The characters of the opening reasoning marker. -/
def openTag : List Char := "<think>".data

/-- The characters of the closing reasoning marker. -/
def closeTag : List Char := "</think>".data

/-- Position of the first occurrence of the closing marker in a
character list (offset of the leftmost index at which `closeTag` is a
prefix), or `none`; this is the non-greedy search of `.*?</think>`. -/
def findClose : List Char → Option Nat
  | [] => none
  | c :: cs =>
    if closeTag.isPrefixOf (c :: cs) then some 0
    else (findClose cs).map (· + 1)

/-- One fuelled left-to-right pass of
`re.sub(r(..)think(..).*?(..)/think(..), r(..)(..), text, flags=re.DOTALL)`:
at each position, if the opening marker matches and a closing marker
follows, the whole non-greedy match is deleted and scanning resumes
after it (never inside previously emitted text); otherwise the
character is kept.  Fuel is an upper bound on steps; each step consumes
at least one character, so fuel = length suffices. -/
def subPairF : Nat → List Char → List Char
  | 0, l => l
  | _ + 1, [] => []
  | fuel + 1, c :: cs =>
    if openTag.isPrefixOf (c :: cs) then
      match findClose ((c :: cs).drop 7) with
      | some k => subPairF fuel ((c :: cs).drop (7 + k + 8))
      | none => c :: subPairF fuel cs
    else c :: subPairF fuel cs

/-- First substitution of `strip_think_tags`: remove every
`<think>...</think>` block, leftmost-shortest, in one pass. -/
def subPair (l : List Char) : List Char := subPairF l.length l

/-- One fuelled left-to-right pass of the second substitution
(the stray-tag regex): each occurrence of `</think>` or `<think>` is
deleted, scanning resuming after the deleted occurrence. -/
def subStrayF : Nat → List Char → List Char
  | 0, l => l
  | _ + 1, [] => []
  | fuel + 1, c :: cs =>
    if closeTag.isPrefixOf (c :: cs) then subStrayF fuel ((c :: cs).drop 8)
    else if openTag.isPrefixOf (c :: cs) then subStrayF fuel ((c :: cs).drop 7)
    else c :: subStrayF fuel cs

/-- Second substitution of `strip_think_tags`: remove stray markers. -/
def subStray (l : List Char) : List Char := subStrayF l.length l

/-- Python whitespace predicate for the ASCII whitespace characters
(space, tab, newline, carriage return, vertical tab, form feed) —
the ones `str.strip()` and `str.isspace()` recognise in this range. -/
def pyIsSpace (c : Char) : Bool :=
  c = ' ' || c = Char.ofNat 9 || c = Char.ofNat 10 || c = Char.ofNat 13 ||
  c = Char.ofNat 11 || c = Char.ofNat 12

/-- Python `str.strip()`: drop leading and trailing whitespace. -/
def pyStrip (l : List Char) : List Char :=
  ((l.dropWhile pyIsSpace).reverse.dropWhile pyIsSpace).reverse

/-- Python `str.isspace()`: non-empty and all whitespace. -/
def pyIsSpaceStr (s : String) : Bool :=
  !s.data.isEmpty && s.data.all pyIsSpace

/-- Character-level core of `strip_think_tags`: the two regex
substitutions followed by `strip()`. -/
def stripCore (l : List Char) : List Char := pyStrip (subStray (subPair l))

/-- `strip_think_tags` (src/gateway.py lines 67-75).  The `if not text`
early return coincides with the general path on the empty string. -/
def strip_think_tags (s : String) : String := String.mk (stripCore s.data)

example : strip_think_tags ("hello") = "hello" := by decide
example : strip_think_tags ("  a <think>b</think> c ") = "a  c" := by decide
example : strip_think_tags ("<think>reasoning") = "reasoning" := by decide
example : strip_think_tags ("<th</think>ink>") = "<think>" := by decide

/-- Whether a character list contains an occurrence of either marker. -/
def hasTag : List Char → Bool
  | [] => false
  | c :: cs => openTag.isPrefixOf (c :: cs) || closeTag.isPrefixOf (c :: cs) || hasTag cs

theorem subPairF_of_no_tag :
    ∀ (l : List Char) (fuel : Nat), hasTag l = false → subPairF fuel l = l := by
  intro l
  induction l with
  | nil => intro fuel _; cases fuel <;> rfl
  | cons c cs ih =>
    intro fuel h
    simp only [hasTag, Bool.or_eq_false_iff] at h
    obtain ⟨⟨h1, _⟩, h3⟩ := h
    cases fuel with
    | zero => rfl
    | succ n =>
      simp only [subPairF, h1, Bool.false_eq_true, if_false]
      rw [ih n h3]

theorem subStrayF_of_no_tag :
    ∀ (l : List Char) (fuel : Nat), hasTag l = false → subStrayF fuel l = l := by
  intro l
  induction l with
  | nil => intro fuel _; cases fuel <;> rfl
  | cons c cs ih =>
    intro fuel h
    simp only [hasTag, Bool.or_eq_false_iff] at h
    obtain ⟨⟨h1, h2⟩, h3⟩ := h
    cases fuel with
    | zero => rfl
    | succ n =>
      simp only [subStrayF, h1, h2, Bool.false_eq_true, if_false]
      rw [ih n h3]

theorem dropWhile_idem (p : Char → Bool) (l : List Char) :
    (l.dropWhile p).dropWhile p = l.dropWhile p := by
  induction l with
  | nil => rfl
  | cons a l ih =>
    cases hpa : p a <;> simp [List.dropWhile_cons, hpa, ih]

theorem dropWhile_append_singleton (p : Char → Bool) (a : Char) (ha : p a = false) :
    ∀ l : List Char, (l ++ [a]).dropWhile p = l.dropWhile p ++ [a] := by
  intro l
  induction l with
  | nil => simp [List.dropWhile_cons, ha]
  | cons b l ih =>
    cases hb : p b <;> simp [List.dropWhile_cons, hb, ih]

theorem dropWhile_head_false (p : Char → Bool) (l : List Char) :
    l.dropWhile p = [] ∨ ∃ a as, l.dropWhile p = a :: as ∧ p a = false := by
  induction l with
  | nil => exact Or.inl rfl
  | cons b l ih =>
    cases hb : p b
    · exact Or.inr ⟨b, l, by simp [List.dropWhile_cons, hb], hb⟩
    · simpa [List.dropWhile_cons, hb] using ih

theorem pyStrip_idem (l : List Char) : pyStrip (pyStrip l) = pyStrip l := by
  rcases dropWhile_head_false pyIsSpace l with h | ⟨a, as, h, ha⟩
  · have h0 : pyStrip l = [] := by unfold pyStrip; rw [h]; rfl
    rw [h0]; rfl
  · have hstrip : pyStrip l = a :: (as.reverse.dropWhile pyIsSpace).reverse := by
      unfold pyStrip
      rw [h, show (a :: as).reverse = as.reverse ++ [a] by simp,
          dropWhile_append_singleton pyIsSpace a ha]
      simp
    rw [hstrip]
    unfold pyStrip
    rw [List.dropWhile_cons, if_neg (by simp [ha]),
        show (a :: (as.reverse.dropWhile pyIsSpace).reverse).reverse
           = as.reverse.dropWhile pyIsSpace ++ [a] by simp,
        dropWhile_append_singleton pyIsSpace a ha, dropWhile_idem]
    simp

theorem stripCore_no_tag_eq (l : List Char) (h : hasTag l = false) :
    stripCore l = pyStrip l := by
  unfold stripCore subPair subStray
  rw [subPairF_of_no_tag l _ h, subStrayF_of_no_tag l _ h]

theorem stripCore_idem_of (l : List Char) (h : hasTag (stripCore l) = false) :
    stripCore (stripCore l) = stripCore l := by
  rw [stripCore_no_tag_eq (stripCore l) h]
  simp only [stripCore]
  rw [pyStrip_idem]

/-- One entry of the `tool_calls` list of an assistant message:
`tool_call["id"]`, `tool_call["function"]["name"]`, and the raw
`tool_call["function"]["arguments"]` JSON text. -/
structure ToolCallReq where
  id : String
  fname : String
  fargs : String
deriving DecidableEq

/-- The first-choice assistant message of a model response:
`content` (possibly null) and the `tool_calls` list (an absent or null
key is the empty list; Python truthiness of `message.get("tool_calls")`
is non-emptiness). -/
structure AssistantMsg where
  content : Option String
  tool_calls : List ToolCallReq
deriving DecidableEq

/-- Outcome of one `call_vllm` invocation: the first-choice message, or
a raised exception (network failure, non-2xx status, malformed JSON). -/
inductive ModelResult where
  | success (m : AssistantMsg)
  | failure
deriving DecidableEq

/-- A message of the exchange list / conversation history. -/
inductive Msg where
  | system (content : String)
  | user (content : String)
  | assistant (content : Option String) (tool_calls : List ToolCallReq)
  | tool (tool_call_id : String) (name : String) (content : String)
deriving DecidableEq

/-- `tool_call_id` field of a message, when it is a tool message. -/
def Msg.toolCallId : Msg → Option String
  | .tool id _ _ => some id
  | _ => none

/-- `name` field of a message, when it is a tool message. -/
def Msg.toolName : Msg → Option String
  | .tool _ n _ => some n
  | _ => none

/-- The request body built by `call_vllm` (src/gateway.py lines 40-52),
keeping the parts the claims are about: the message list, and — present
exactly when the `tools` argument is truthy — the tool list together
with the `tool_choice` value. -/
structure Payload where
  messages : List Msg
  tools : Option (List ToolDef × String)
deriving DecidableEq

/-- Payload construction of `call_vllm`: `tools`/`tool_choice` are added
iff the passed tool list is non-empty (Python truthiness of `tools`). -/
def mkPayload (msgs : List Msg) (tools : List ToolDef) : Payload :=
  { messages := msgs, tools := if tools.isEmpty then none else some (tools, "auto") }

/-- The oracles a turn interacts with: enriched context, the model
endpoint (per call index), `json.loads` on tool-call arguments,
subprocess execution, `json.loads` on tool stdout, `json.dumps` on tool
results, the typing indicator inside the loop (per iteration), and the
final `reply_text` (whether it succeeds). -/
structure GatewayEnv where
  cfg : GatewayConfig
  context : String
  resp : Nat → ModelResult
  argsParse : String → Except String ToolArgs
  run : List PyVal → Nat → SubprocResult
  parse : String → Except String Unit
  dumps : ToolRet → String
  typingOk : Nat → Bool
  replyOk : Bool

/-- The `for tool_call in message["tool_calls"]` loop
(src/gateway.py lines 141-157): parse the arguments JSON (a failure is
a raised exception aborting the turn), execute the tool, and append the
tool message with the matching `tool_call_id` and name — each result
appended before the next request is dispatched. -/
def processToolCalls (env : GatewayEnv) : List Msg → List ToolCallReq → Except PyExc (List Msg)
  | msgs, [] => .ok msgs
  | msgs, tc :: rest =>
    match env.argsParse tc.fargs with
    | .error m => .error (.otherExc m)
    | .ok args =>
      let r := execute_tool env.cfg env.run env.parse tc.fname args
      processToolCalls env (msgs ++ [Msg.tool tc.id tc.fname (env.dumps r)]) rest

/-- Handling of one assistant response carrying tool calls
(src/gateway.py lines 136-157): the assistant message is appended to
the exchange first, then every tool call is dispatched in order. -/
def processBatch (env : GatewayEnv) (msgs : List Msg) (am : AssistantMsg) :
    Except PyExc (List Msg) :=
  processToolCalls env (msgs ++ [Msg.assistant am.content am.tool_calls]) am.tool_calls

/-- Result of the `while iteration < max_iterations` loop: a final text
response (with the exchange at that point), exhaustion of the iteration
budget with `final_message` still `None`, or a raised exception. -/
inductive LoopRes where
  | final (content : Option String) (msgs : List Msg)
  | capped (msgs : List Msg)
  | err
deriving DecidableEq

/-- Whether the loop ended by exhausting its iteration budget. -/
def LoopRes.isCapped : LoopRes → Bool
  | .capped _ => true
  | _ => false

/-- The orchestration loop (src/gateway.py lines 127-165), by remaining
iterations (`fuel = max_iterations - iteration`): each pass builds the
request payload, invokes the model, and either finishes with the text
response, processes the tool batch (sending the typing indicator, whose
failure — like any other raised exception — aborts the turn) and
recurses, or stops when fuel runs out.  The second component collects
the request payloads of every model call made, in order. -/
def loopGo (env : GatewayEnv) : Nat → Nat → List Msg → LoopRes × List Payload
  | 0, _, msgs => (.capped msgs, [])
  | fuel + 1, callIdx, msgs =>
    let p := mkPayload msgs TOOLS
    match env.resp callIdx with
    | .failure => (.err, [p])
    | .success am =>
      if am.tool_calls.isEmpty then
        (.final am.content msgs, [p])
      else
        match processBatch env msgs am with
        | .error _ => (.err, [p])
        | .ok msgs' =>
          if env.typingOk callIdx then
            let pr := loopGo env fuel (callIdx + 1) msgs'
            (pr.1, p :: pr.2)
          else (.err, [p])

/-- The canned reply used when the loop ends without a text response
(src/gateway.py line 169). -/
def fallbackNoResponse : String :=
  "I executed the tools but couldn" ++ apos ++ "t generate a response."

/-- The canned reply used when the stripped final text is blank
(src/gateway.py line 175). -/
def fallbackEmpty : String := "I processed your request but have no response to show."

/-- The generic apology of the exception handler (src/gateway.py line 193). -/
def apologyText : String := "Sorry, I encountered an error processing your request."

/-- The initial exchange (src/gateway.py lines 115-124): the system
prompt, the enriched-context system message, the trailing 10 entries of
the stored history (`history[-10:]`), and the current user message. -/
def seedMsgs (env : GatewayEnv) (history : List Msg) (u : String) : List Msg :=
  [Msg.system env.cfg.systemPrompt, Msg.system ("PROJECT CONTEXT:\n" ++ env.context)]
    ++ history.drop (history.length - 10) ++ [Msg.user u]

/-- History truncation (src/gateway.py lines 187-188): keep the last 20
entries when the list has grown beyond 20. -/
def truncate20 (h : List Msg) : List Msg :=
  if h.length > 20 then h.drop (h.length - 20) else h

/-- What a turn observably produces: the texts handed to `reply_text`
(in order), the stored conversation history afterwards, and the request
payloads of all model calls made. -/
structure TurnResult where
  sends : List String
  history : List Msg
  payloads : List Payload
deriving DecidableEq

/-- Post-loop processing (src/gateway.py lines 167-188): substitute the
no-response fallback when `final_message` is `None` or empty, strip the
reasoning markers, substitute the blank-reply fallback when the
stripped text is empty or whitespace-only, send the reply (a failure is
caught by the handler: apology, history untouched), then commit the
user and assistant messages to history and truncate. -/
def finishTurn (env : GatewayEnv) (history : List Msg) (u : String)
    (c : Option String) (ps : List Payload) : TurnResult :=
  let fm1 := match c with
    | none => fallbackNoResponse
    | some s => if s = "" then fallbackNoResponse else s
  let fm2 := strip_think_tags fm1
  let fm3 := if fm2 = "" || pyIsSpaceStr fm2 then fallbackEmpty else fm2
  if env.replyOk then
    { sends := [fm3],
      history := truncate20 (history ++ [Msg.user u, Msg.assistant (some fm3) []]),
      payloads := ps }
  else
    { sends := [apologyText], history := history, payloads := ps }

/-- `handle_message` (src/gateway.py lines 104-193), for a turn whose
(possibly upload-annotated) user text is `u` and whose stored history
is `history`: run the orchestration loop on the seeded exchange; an
escaped exception reaches the handler (apology sent, history left as it
was), otherwise the turn is finished and committed. -/
def handle_message (env : GatewayEnv) (history : List Msg) (u : String) : TurnResult :=
  let pr := loopGo env 5 0 (seedMsgs env history u)
  match pr.1 with
  | .err => { sends := [apologyText], history := history, payloads := pr.2 }
  | .capped _ => finishTurn env history u none pr.2
  | .final c _ => finishTurn env history u c pr.2

/-- A small concrete configuration used in concrete evaluations. -/
def sampleCfg : GatewayConfig :=
  { systemPrompt := "SYS", taskScriptsDir := "/t", rfpScriptsDir := "/r",
    projectScriptsDir := "/p" }

/-- A model response that requests one tool call. -/
def toolResp : ModelResult :=
  .success { content := none, tool_calls := [⟨"call_1", "get_projects", ""⟩] }

/-- Concrete environment in which the model requests tool calls on
every iteration and every other step succeeds. -/
def envTools : GatewayEnv :=
  { cfg := sampleCfg, context := "", resp := fun _ => toolResp,
    argsParse := fun _ => .ok [], run := fun _ _ => .completed 0 ("[]") (""),
    parse := fun _ => .ok (), dumps := fun _ => "[]", typingOk := fun _ => true,
    replyOk := true }

/-- Concrete environment in which the first model call raises. -/
def envFail : GatewayEnv := { envTools with resp := fun _ => .failure }

/-- A plain text model response with reasoning markers and whitespace. -/
def textMsg : AssistantMsg := ⟨some ("<think>why</think> Hello! "), []⟩

/-- Concrete environment in which the first model response is a text
response with surrounding reasoning markers and whitespace. -/
def envText : GatewayEnv := { envTools with resp := fun _ => .success textMsg }

/-- A text model response with empty content. -/
def emptyContentMsg : AssistantMsg := ⟨some (""), []⟩

/-- Concrete environment in which the first model response is a text
response with empty content. -/
def envEmptyContent : GatewayEnv :=
  { envTools with resp := fun _ => .success emptyContentMsg }

/-- A reasoning-only text model response (blank after stripping). -/
def thinkOnlyMsg : AssistantMsg := ⟨some ("<think>hidden</think>"), []⟩

/-- Concrete environment in which the first model response is
reasoning-only text (blank after stripping). -/
def envThinkOnly : GatewayEnv :=
  { envTools with resp := fun _ => .success thinkOnlyMsg }

set_option maxHeartbeats 1600000 in
theorem buildCmd_timeout_value (cfg : GatewayConfig) (name : String) (args : ToolArgs)
    (cmd : List PyVal) (tmo : Nat) (h : buildCmd cfg name args = .ok (some (cmd, tmo))) :
    tmo = (if name = "analyze_task_document" ∨ name = "complete_task" then 60
           else if name = "process_rfp" then 300 else 30) := by
  by_cases h1 : name = "get_tasks"
  · subst h1
    rcases hq : args.lookup ("project_slug") with _ | ps <;>
      simp [buildCmd, hq] at h
    simp
    omega
  by_cases h2 : name = "get_task"
  · subst h2
    rcases hq : args.lookup ("task_id") with _ | tid <;>
      simp [buildCmd, hq] at h
    simp
    omega
  by_cases h3 : name = "analyze_task_document"
  · subst h3
    rcases hq : args.lookup ("task_id") with _ | tid <;>
      simp [buildCmd, hq] at h
    simp
    omega
  by_cases h4 : name = "complete_task"
  · subst h4
    rcases hq : args.lookup ("task_id") with _ | tid <;>
      simp [buildCmd, hq] at h
    simp
    omega
  by_cases h5 : name = "create_task"
  · subst h5
    rcases hq : args.lookup ("topic_id") with _ | topic <;>
      simp [buildCmd, hq] at h
    rcases hq2 : args.lookup ("title") with _ | title <;>
      simp [hq2] at h
    simp
    omega
  by_cases h6 : name = "update_task"
  · subst h6
    rcases hq : args.lookup ("task_id") with _ | tid <;>
      simp [buildCmd, hq] at h
    simp
    omega
  by_cases h7 : name = "delete_task"
  · subst h7
    rcases hq : args.lookup ("task_id") with _ | tid <;>
      simp [buildCmd, hq] at h
    simp
    omega
  by_cases h8 : name = "process_rfp"
  · subst h8
    simp [buildCmd] at h
    simp
    omega
  by_cases h9 : name = "get_project_stats"
  · subst h9
    rcases hq : args.lookup ("project_slug") with _ | ps <;>
      simp [buildCmd, hq] at h
    simp
    omega
  by_cases h10 : name = "delete_project"
  · subst h10
    rcases hq : args.lookup ("project_slug") with _ | ps <;>
      simp [buildCmd, hq] at h
    simp
    omega
  by_cases h11 : name = "get_projects"
  · subst h11
    simp [buildCmd] at h
    simp
    omega
  · simp [buildCmd, h1, h2, h3, h4, h5, h6, h7, h8, h9, h10, h11] at h

/-- Claim C6: `execute_tool` enforces a per-tool maximum wait — 30
seconds for the short tools, 60 for `analyze_task_document` and
`complete_task`, 300 for `process_rfp` — and when the external process
exceeds its timeout the result is the error dictionary saying the tool
timed out, returned normally (no exception propagates, the process is
run once with no retry). -/
theorem C6_timeout_policy :
    (∀ cfg name args cmd tmo, buildCmd cfg name args = .ok (some (cmd, tmo)) →
        tmo = (if name = "analyze_task_document" ∨ name = "complete_task" then 60
               else if name = "process_rfp" then 300 else 30))
    ∧ (∀ cfg run parse name args cmd tmo, buildCmd cfg name args = .ok (some (cmd, tmo)) →
        run cmd tmo = .timeout →
        execute_tool cfg run parse name args = .err ("Tool " ++ name ++ " timed out")) := by
  constructor
  · exact buildCmd_timeout_value
  · intro cfg run parse name args cmd tmo hb hr
    unfold execute_tool execute_tool_try
    rw [hb]
    simp [hr]

/-- Concrete instance of Claim C6: `get_projects` gets the short 30s
timeout, and a timing-out run yields the timed-out error dictionary. -/
theorem C6_witness :
    (30 : Nat) = (if ("get_projects" = "analyze_task_document" ∨
                      "get_projects" = "complete_task") then 60
                  else if "get_projects" = "process_rfp" then 300 else 30)
    ∧ execute_tool sampleCfg (fun _ _ => .timeout) (fun _ => .ok ()) ("get_projects") []
        = .err ("Tool get_projects timed out") :=
  ⟨C6_timeout_policy.1 sampleCfg ("get_projects") []
      [PyVal.pstr ("python3"), PyVal.pstr ("/p/projects.py"), PyVal.pstr ("list")] 30 rfl,
   C6_timeout_policy.2 sampleCfg (fun _ _ => .timeout) (fun _ => .ok ()) ("get_projects") []
      [PyVal.pstr ("python3"), PyVal.pstr ("/p/projects.py"), PyVal.pstr ("list")] 30 rfl rfl⟩

/-- Claim C7: for every tool name that is not the name of one of the 11
catalog entries, `execute_tool` returns the error dictionary
`Unknown tool: <name>` and never raises (it is a total function). -/
theorem C7_unknown_tool (cfg : GatewayConfig) (run : List PyVal → Nat → SubprocResult)
    (parse : String → Except String Unit) (name : String) (args : ToolArgs)
    (h : ∀ t ∈ TOOLS, t.name ≠ name) :
    execute_tool cfg run parse name args = .err ("Unknown tool: " ++ name) := by
  simp only [TOOLS, List.mem_cons, List.not_mem_nil, or_false, forall_eq_or_imp,
    forall_eq] at h
  obtain ⟨n1, n2, n3, n4, n5, n6, n7, n8, n9, n10, n11⟩ := h
  have hb : buildCmd cfg name args = .ok none := by
    unfold buildCmd
    rw [if_neg (by exact fun e => n1 e.symm), if_neg (by exact fun e => n2 e.symm),
        if_neg (by exact fun e => n3 e.symm), if_neg (by exact fun e => n4 e.symm),
        if_neg (by exact fun e => n5 e.symm), if_neg (by exact fun e => n6 e.symm),
        if_neg (by exact fun e => n7 e.symm), if_neg (by exact fun e => n8 e.symm),
        if_neg (by exact fun e => n9 e.symm), if_neg (by exact fun e => n10 e.symm),
        if_neg (by exact fun e => n11 e.symm)]
  unfold execute_tool execute_tool_try
  rw [hb]

/-- Concrete instance of Claim C7: the name `frobnicate` is not in the
catalog and produces the unknown-tool error dictionary. -/
theorem C7_witness :
    execute_tool sampleCfg (fun _ _ => .timeout) (fun _ => .ok ()) ("frobnicate") []
      = .err ("Unknown tool: frobnicate") :=
  C7_unknown_tool sampleCfg (fun _ _ => .timeout) (fun _ => .ok ()) ("frobnicate") []
    (by decide)

/-- Claim C10: `execute_tool` is total — whenever an exception escapes
the body of its `try` block (for instance the `KeyError` raised by
`get_tasks` when the `project_slug` argument is missing), the function
still returns an error dictionary rather than propagating. -/
theorem C10_executor_total :
    (∀ cfg run parse name args e, execute_tool_try cfg run parse name args = .error e →
        ∃ m, execute_tool cfg run parse name args = .err m)
    ∧ (∀ cfg run parse args, args.lookup ("project_slug") = none →
        execute_tool cfg run parse ("get_tasks") args
          = .err ("Tool execution failed: " ++ apos ++ "project_slug" ++ apos)) := by
  constructor
  · intro cfg run parse name args e h
    unfold execute_tool
    rw [h]
    cases e <;> exact ⟨_, rfl⟩
  · intro cfg run parse args h
    unfold execute_tool execute_tool_try buildCmd
    simp [h, excStr, String.append_assoc]

/-- Concrete instance of Claim C10: calling `get_tasks` with an empty
argument mapping raises `KeyError` inside the body, and the caller
still receives an error dictionary. -/
theorem C10_witness :
    (∃ m, execute_tool sampleCfg (fun _ _ => .timeout) (fun _ => .ok ())
            ("get_tasks") [] = .err m)
    ∧ execute_tool sampleCfg (fun _ _ => .timeout) (fun _ => .ok ()) ("get_tasks") []
        = .err ("Tool execution failed: " ++ apos ++ "project_slug" ++ apos) :=
  ⟨C10_executor_total.1 sampleCfg (fun _ _ => .timeout) (fun _ => .ok ()) ("get_tasks") []
      (.keyError ("project_slug")) rfl,
   C10_executor_total.2 sampleCfg (fun _ _ => .timeout) (fun _ => .ok ()) [] rfl⟩

/-- Counterexample to Claim C3: `strip_think_tags` is not idempotent.
On `<th</think>ink>` the pair-removal pass matches nothing and the
stray-tag pass deletes the embedded `</think>`, splicing the remainder
into a fresh `<think>`; a second application then deletes that marker,
so stripping twice differs from stripping once. -/
theorem C3_cex :
    strip_think_tags ("<th</think>ink>") = "<think>"
    ∧ strip_think_tags (strip_think_tags ("<th</think>ink>")) = ""
    ∧ strip_think_tags (strip_think_tags ("<th</think>ink>"))
        ≠ strip_think_tags ("<th</think>ink>") :=
  ⟨by decide, by decide, by decide⟩

/-- Claim C3 (amended): `strip_think_tags` is idempotent on every
string whose stripped form contains no `<think>`/`</think>` marker
(stripping can splice markers together, so this is not all strings —
see the counterexample), and on every marker-free string it returns the
input with leading and trailing whitespace trimmed. -/
theorem C3_strip_idem_amended :
    (∀ s : String, hasTag (strip_think_tags s).data = false →
        strip_think_tags (strip_think_tags s) = strip_think_tags s)
    ∧ (∀ s : String, hasTag s.data = false →
        strip_think_tags s = String.mk (pyStrip s.data)) := by
  constructor
  · intro s h
    have hd : (strip_think_tags s).data = stripCore s.data := rfl
    rw [hd] at h
    show String.mk (stripCore (stripCore s.data)) = String.mk (stripCore s.data)
    rw [stripCore_idem_of s.data h]
  · intro s h
    exact congrArg String.mk (stripCore_no_tag_eq s.data h)

/-- Concrete instance of Claim C3 (amended) at the marker-free string
"  ok then  ". -/
theorem C3_witness :
    strip_think_tags (strip_think_tags ("  ok then  "))
        = strip_think_tags ("  ok then  ")
    ∧ strip_think_tags ("  ok then  ") = String.mk (pyStrip ("  ok then  ").data) :=
  ⟨C3_strip_idem_amended.1 ("  ok then  ") (by decide),
   C3_strip_idem_amended.2 ("  ok then  ") (by decide)⟩

theorem handle_message_eq (env : GatewayEnv) (history : List Msg) (u : String) :
    handle_message env history u =
      match (loopGo env 5 0 (seedMsgs env history u)).1 with
      | .err => { sends := [apologyText], history := history,
                  payloads := (loopGo env 5 0 (seedMsgs env history u)).2 }
      | .capped _ => finishTurn env history u none (loopGo env 5 0 (seedMsgs env history u)).2
      | .final c _ => finishTurn env history u c (loopGo env 5 0 (seedMsgs env history u)).2 :=
  rfl

theorem finishTurn_ok (env : GatewayEnv) (history : List Msg) (u : String)
    (c : Option String) (ps : List Payload) (hr : env.replyOk = true) :
    ∃ fm, finishTurn env history u c ps =
      { sends := [fm],
        history := truncate20 (history ++ [Msg.user u, Msg.assistant (some fm) []]),
        payloads := ps } := by
  unfold finishTurn
  rw [hr]
  exact ⟨_, rfl⟩

theorem finishTurn_fail (env : GatewayEnv) (history : List Msg) (u : String)
    (c : Option String) (ps : List Payload) (hr : env.replyOk = false) :
    finishTurn env history u c ps =
      { sends := [apologyText], history := history, payloads := ps } := by
  unfold finishTurn
  rw [hr]
  rfl

theorem handle_message_payloads (env : GatewayEnv) (history : List Msg) (u : String) :
    (handle_message env history u).payloads = (loopGo env 5 0 (seedMsgs env history u)).2 := by
  rw [handle_message_eq]
  cases (loopGo env 5 0 (seedMsgs env history u)).1 with
  | err => rfl
  | capped m =>
    cases hr : env.replyOk
    · exact congrArg TurnResult.payloads (finishTurn_fail env history u none _ hr)
    · obtain ⟨fm, hft⟩ := finishTurn_ok env history u none _ hr
      exact congrArg TurnResult.payloads hft
  | final c m =>
    cases hr : env.replyOk
    · exact congrArg TurnResult.payloads (finishTurn_fail env history u c _ hr)
    · obtain ⟨fm, hft⟩ := finishTurn_ok env history u c _ hr
      exact congrArg TurnResult.payloads hft

theorem loopGo_payload_bound (env : GatewayEnv) :
    ∀ (fuel callIdx : Nat) (msgs : List Msg),
      (loopGo env fuel callIdx msgs).2.length ≤ fuel := by
  intro fuel
  induction fuel with
  | zero => intro callIdx msgs; simp [loopGo]
  | succ n ih =>
    intro callIdx msgs
    simp only [loopGo]
    cases env.resp callIdx with
    | failure => simp
    | success am =>
      cases he : am.tool_calls.isEmpty
      · simp only [he, Bool.false_eq_true, if_false]
        cases hp : processBatch env msgs am with
        | error e => simp
        | ok msgs' =>
          cases ht : env.typingOk callIdx
          · simp
          · simpa using Nat.succ_le_succ (ih (callIdx + 1) msgs')
      · simp [he]

theorem loopGo_payload_tools (env : GatewayEnv) :
    ∀ (fuel callIdx : Nat) (msgs : List Msg) (p : Payload),
      p ∈ (loopGo env fuel callIdx msgs).2 → p.tools = some (TOOLS, "auto") := by
  intro fuel
  induction fuel with
  | zero => intro callIdx msgs p hp; simp [loopGo] at hp
  | succ n ih =>
    intro callIdx msgs p hp
    have hmk : (mkPayload msgs TOOLS).tools = some (TOOLS, "auto") := by
      unfold mkPayload
      rw [if_neg (by decide)]
    simp only [loopGo] at hp
    split at hp
    · simp at hp
      rw [hp]
      exact hmk
    · split at hp
      · simp at hp
        rw [hp]
        exact hmk
      · split at hp
        · simp at hp
          rw [hp]
          exact hmk
        · split at hp
          · simp only [List.mem_cons] at hp
            rcases hp with hp | hp
            · rw [hp]
              exact hmk
            · exact ih _ _ p hp
          · simp at hp
            rw [hp]
            exact hmk

theorem truncate20_eq_drop (l : List Msg) : truncate20 l = l.drop (l.length - 20) := by
  unfold truncate20
  split
  · rfl
  · next h =>
    rw [Nat.sub_eq_zero_of_le (Nat.le_of_not_lt h), List.drop_zero]

theorem truncate20_len (l : List Msg) : (truncate20 l).length ≤ 20 := by
  unfold truncate20
  split
  · next h => rw [List.length_drop]; omega
  · next h => omega

/-- Claim C1: the orchestration loop invokes the model endpoint at most
6 times per turn (in fact at most 5 — one call per iteration of the
5-iteration loop) and terminates (`loopGo` is total by construction, on
the fuel `5 - iteration`); in particular, when every one of the 5
consecutive model responses carries tool calls, the loop exits and no
6th model call is made. -/
theorem C1_model_call_bound (env : GatewayEnv) (history : List Msg) (u : String) :
    (handle_message env history u).payloads.length ≤ 6
    ∧ ((∀ i, i < 5 → ∃ am, env.resp i = .success am ∧ am.tool_calls ≠ []) →
        (handle_message env history u).payloads.length ≤ 5) := by
  have hb : (handle_message env history u).payloads.length ≤ 5 := by
    rw [handle_message_payloads]
    exact loopGo_payload_bound env 5 0 _
  exact ⟨Nat.le_trans hb (by omega), fun _ => hb⟩

/-- Concrete instance of Claim C1: in an environment whose model
endpoint requests tool calls on every iteration, no 6th call is made. -/
theorem C1_witness : (handle_message envTools [] ("hi")).payloads.length ≤ 5 :=
  (C1_model_call_bound envTools [] ("hi")).2
    (fun _ _ => ⟨⟨none, [⟨"call_1", "get_projects", ""⟩]⟩, rfl, by decide⟩)

theorem processToolCalls_decomp :
    ∀ (tcs : List ToolCallReq) (env : GatewayEnv) (msgs msgs' : List Msg),
      processToolCalls env msgs tcs = .ok msgs' →
      ∃ tms, msgs' = msgs ++ tms
        ∧ tms.map Msg.toolCallId = tcs.map (fun tc => some tc.id)
        ∧ tms.map Msg.toolName = tcs.map (fun tc => some tc.fname) := by
  intro tcs
  induction tcs with
  | nil =>
    intro env msgs msgs' h
    simp only [processToolCalls, Except.ok.injEq] at h
    exact ⟨[], by simp [← h], by simp, by simp⟩
  | cons tc rest ih =>
    intro env msgs msgs' h
    simp only [processToolCalls] at h
    cases hp : env.argsParse tc.fargs with
    | error m => rw [hp] at h; exact absurd h (by simp)
    | ok args =>
      rw [hp] at h
      obtain ⟨tms, he, hid, hnm⟩ := ih env _ _ h
      refine ⟨Msg.tool tc.id tc.fname
          (env.dumps (execute_tool env.cfg env.run env.parse tc.fname args)) :: tms,
        ?_, ?_, ?_⟩
      · rw [he]; simp
      · simp [Msg.toolCallId, hid]
      · simp [Msg.toolName, hnm]

/-- Claim C2: when an assistant response carrying a non-empty
`tool_calls` list is processed, the assistant message is appended to
the exchange first, and then exactly one tool message per request is
appended, in request order, each carrying the matching `tool_call_id`
(and tool name) of its originating request. -/
theorem C2_tool_result_order (env : GatewayEnv) (msgs : List Msg) (am : AssistantMsg)
    (msgs' : List Msg) (hne : am.tool_calls ≠ [])
    (h : processBatch env msgs am = .ok msgs') :
    ∃ tms, msgs' = msgs ++ [Msg.assistant am.content am.tool_calls] ++ tms
      ∧ tms.map Msg.toolCallId = am.tool_calls.map (fun tc => some tc.id)
      ∧ tms.map Msg.toolName = am.tool_calls.map (fun tc => some tc.fname) := by
  obtain ⟨tms, he, hid, hnm⟩ := processToolCalls_decomp am.tool_calls env _ _ h
  exact ⟨tms, by rw [he], hid, hnm⟩

/-- A two-request batch used as concrete input for Claim C2. -/
def am2 : AssistantMsg :=
  ⟨some (""), [⟨"id_a", "get_projects", ""⟩, ⟨"id_b", "frob", ""⟩]⟩

/-- The exchange produced by processing `am2` from an empty exchange in
the concrete environment `envTools`. -/
def batchOut : List Msg :=
  [Msg.assistant (some ("")) am2.tool_calls,
   Msg.tool ("id_a") ("get_projects") ("[]"),
   Msg.tool ("id_b") ("frob") ("[]")]

/-- Concrete instance of Claim C2: a batch of two tool calls produces
two tool messages, in order, with matching ids and names. -/
theorem C2_witness :
    ∃ tms, batchOut = [] ++ [Msg.assistant am2.content am2.tool_calls] ++ tms
      ∧ tms.map Msg.toolCallId = am2.tool_calls.map (fun tc => some tc.id)
      ∧ tms.map Msg.toolName = am2.tool_calls.map (fun tc => some tc.fname) :=
  C2_tool_result_order envTools [] am2 batchOut (by decide) rfl

theorem handle_message_of_err (env : GatewayEnv) (history : List Msg) (u : String)
    (h : (loopGo env 5 0 (seedMsgs env history u)).1 = .err) :
    handle_message env history u =
      { sends := [apologyText], history := history,
        payloads := (loopGo env 5 0 (seedMsgs env history u)).2 } := by
  rw [handle_message_eq, h]

theorem handle_message_of_ok (env : GatewayEnv) (history : List Msg) (u : String)
    (hok : (loopGo env 5 0 (seedMsgs env history u)).1 ≠ .err) :
    ∃ c, handle_message env history u =
      finishTurn env history u c (loopGo env 5 0 (seedMsgs env history u)).2 := by
  rw [handle_message_eq]
  cases hres : (loopGo env 5 0 (seedMsgs env history u)).1 with
  | err => exact absurd hres hok
  | capped m => exact ⟨none, rfl⟩
  | final c m => exact ⟨c, rfl⟩

/-- Claim C4: whenever the model call — or any other step of the turn
before the final reply is delivered (argument parsing, the typing
indicator, the reply itself) — fails, the handler leaves the persisted
conversation history exactly as it was and sends the generic apology
instead; no user or assistant message is committed. -/
theorem C4_failed_turn_preserves_history (env : GatewayEnv) (history : List Msg)
    (u : String)
    (h : (loopGo env 5 0 (seedMsgs env history u)).1 = .err ∨ env.replyOk = false) :
    (handle_message env history u).history = history
    ∧ (handle_message env history u).sends = [apologyText] := by
  rcases h with h | h
  · rw [handle_message_of_err env history u h]
    exact ⟨rfl, rfl⟩
  · by_cases he : (loopGo env 5 0 (seedMsgs env history u)).1 = .err
    · rw [handle_message_of_err env history u he]
      exact ⟨rfl, rfl⟩
    · obtain ⟨c, hcm⟩ := handle_message_of_ok env history u he
      rw [hcm, finishTurn_fail env history u c _ h]
      exact ⟨rfl, rfl⟩

/-- Concrete instance of Claim C4: the first model call raises, the
history stays empty and only the apology is sent. -/
theorem C4_witness :
    (handle_message envFail [] ("hi")).history = []
    ∧ (handle_message envFail [] ("hi")).sends = [apologyText] :=
  C4_failed_turn_preserves_history envFail [] ("hi") (Or.inl rfl)

/-- Claim C5: after every completed turn (the loop did not abort and
the reply was delivered) the stored history is the last at-most-20
entries, in original order, of the previous history extended with the
user message of the turn followed by the final assistant message, and its
length is at most 20. -/
theorem C5_history_truncation (env : GatewayEnv) (history : List Msg) (u : String)
    (hok : (loopGo env 5 0 (seedMsgs env history u)).1 ≠ .err)
    (hr : env.replyOk = true) :
    ∃ fm, (handle_message env history u).sends = [fm]
      ∧ (handle_message env history u).history
          = (history ++ [Msg.user u, Msg.assistant (some fm) []]).drop
              ((history ++ [Msg.user u, Msg.assistant (some fm) []]).length - 20)
      ∧ (handle_message env history u).history.length ≤ 20 := by
  obtain ⟨c, hcm⟩ := handle_message_of_ok env history u hok
  obtain ⟨fm, hft⟩ := finishTurn_ok env history u c _ hr
  rw [hcm, hft]
  exact ⟨fm, rfl, truncate20_eq_drop _, truncate20_len _⟩

/-- Concrete instance of Claim C5: a one-shot text reply commits
exactly the user message and the assistant reply. -/
theorem C5_witness :
    ∃ fm, (handle_message envText [] ("hi")).sends = [fm]
      ∧ (handle_message envText [] ("hi")).history
          = (([] : List Msg) ++ [Msg.user ("hi"), Msg.assistant (some fm) []]).drop
              ((([] : List Msg) ++ [Msg.user ("hi"), Msg.assistant (some fm) []]).length - 20)
      ∧ (handle_message envText [] ("hi")).history.length ≤ 20 :=
  C5_history_truncation envText [] ("hi") (by decide) rfl

/-- Counterexample to Claim C8: there is no forced final model
invocation with the catalog omitted.  In a run where the model requests
tools on all 5 iterations, the cap is reached with tools still being
requested, yet every one of the model calls made carried the full
catalog with tool choice `auto` — none omitted it — and no further call
happened. -/
theorem C8_cex :
    (loopGo envTools 5 0 (seedMsgs envTools [] ("hi"))).1.isCapped = true
    ∧ (handle_message envTools [] ("hi")).payloads.length = 5
    ∧ ((handle_message envTools [] ("hi")).payloads.all
        (fun p => p.tools == some (TOOLS, "auto"))) = true
    ∧ ¬ ∃ p ∈ (handle_message envTools [] ("hi")).payloads, p.tools = none := by
  refine ⟨by decide, by decide, by decide, ?_⟩
  decide

/-- Claim C8 (amended): the loop has no forced final iteration that
omits the catalog; every model invocation of every turn includes the
full tool catalog with `tool_choice` set to `auto`, and when the
iteration cap is reached the loop exits without any further model
call. -/
theorem C8_tools_always_included (env : GatewayEnv) (history : List Msg) (u : String)
    (p : Payload) (hp : p ∈ (handle_message env history u).payloads) :
    p.tools = some (TOOLS, "auto") := by
  rw [handle_message_payloads] at hp
  exact loopGo_payload_tools env 5 0 _ p hp

/-- Concrete instance of Claim C8 (amended): the first request payload
of a concrete turn carries the full catalog with `auto` tool choice. -/
theorem C8_witness :
    (mkPayload (seedMsgs envTools [] ("hi")) TOOLS).tools = some (TOOLS, "auto") :=
  C8_tools_always_included envTools [] ("hi") _ (by decide)

/-- Counterexample to Claim C9: when the candidate final text is the
empty string, its stripped form is blank, yet the reply sent is the
`I executed the tools...` fallback (substituted before stripping by the
`if not final_message` check), not the
`I processed your request...` canned message the claim names. -/
theorem C9_cex :
    strip_think_tags ("") = ""
    ∧ (handle_message envEmptyContent [] ("hi")).sends = [fallbackNoResponse]
    ∧ fallbackNoResponse ≠ fallbackEmpty := by
  refine ⟨by decide, by decide, by decide⟩

/-- Claim C9 (amended): when the loop ends with a non-empty candidate
final text whose stripped form is empty or whitespace-only, the reply
sent is exactly the `I processed your request but have no response to
show.` canned message, and the turn completes normally: the user
message and that canned assistant message are committed to history.
(The empty/missing-content candidate instead gets the
`I executed the tools...` fallback — see the counterexample.) -/
theorem C9_blank_reply_fallback (env : GatewayEnv) (history : List Msg) (u : String)
    (s : String) (m : List Msg)
    (hres : (loopGo env 5 0 (seedMsgs env history u)).1 = .final (some s) m)
    (hs : s ≠ "")
    (hb : strip_think_tags s = "" ∨ pyIsSpaceStr (strip_think_tags s) = true)
    (hr : env.replyOk = true) :
    (handle_message env history u).sends = [fallbackEmpty]
    ∧ (handle_message env history u).history
        = truncate20 (history ++ [Msg.user u, Msg.assistant (some fallbackEmpty) []]) := by
  have hm : handle_message env history u
      = finishTurn env history u (some s) (loopGo env 5 0 (seedMsgs env history u)).2 := by
    rw [handle_message_eq, hres]
  have hcond : (decide (strip_think_tags s = "") || pyIsSpaceStr (strip_think_tags s))
      = true := by
    rcases hb with hb | hb
    · rw [hb]; simp
    · rw [hb]; simp
  rw [hm]
  unfold finishTurn
  rw [hr]
  simp only [if_neg hs, hcond, if_true]
  exact ⟨trivial, trivial⟩

/-- Concrete instance of Claim C9 (amended): a reasoning-only final
text yields the canned blank-reply message, and the turn is committed. -/
theorem C9_witness :
    (handle_message envThinkOnly [] ("hi")).sends = [fallbackEmpty]
    ∧ (handle_message envThinkOnly [] ("hi")).history
        = truncate20 ([] ++ [Msg.user ("hi"), Msg.assistant (some fallbackEmpty) []]) :=
  C9_blank_reply_fallback envThinkOnly [] ("hi") ("<think>hidden</think>")
    (seedMsgs envThinkOnly [] ("hi")) (by decide) (by decide) (Or.inl (by decide)) rfl
